import Mathlib

/-!
Shallow embedding of the offline-first content cache and synchronization
layer of the EconQuiz mobile client (modules `offlineStorage`,
`articleService`, `quizService`).

Modelling conventions:
* `AsyncStorage` is modelled as a typed store: one optional list record per
  entity type, one association list (storage key suffix = entity id) of
  detail records per entity type, and an optional sync-clock value.  The
  real store maps namespaced string keys to JSON strings; since the key of
  a detail record is an injective function of the entity id and JSON
  serialization round-trips the records involved, the typed store is in
  bijection with the relevant fragment of the string store.
* Timestamps that are computed with (`Date.getTime`, `Date.now`) are
  modelled as `Int` milliseconds; timestamps that are only carried around
  (`created_at` on entities) stay `String`.
* Each `AsyncStorage.setItem` / `getItem` call can throw.  `StorageEnv`
  says, per storage key, whether the call throws; the `try`/`catch`
  blocks of the source are then translated explicitly.  `okStorage` is the
  nominal environment where storage never fails.
* `saveArticlesOffline` / `saveQuizzesOffline` issue their detail writes
  through `Promise.all`: all writes are started before any rejection is
  observed, so every write whose own key does not fail takes effect, but a
  single rejection makes the surrounding `await` throw, which skips the
  `saveLastSyncTime()` call.  The model applies the surviving writes in
  list order (for distinct ids every interleaving yields the same map) and
  stamps the clock only when no write failed.
-/

/-- Full article row, from `src/types/article.ts` (`Article`). -/
structure Article where
  id : String
  title : String
  content : String
  summary : String
  is_premium : Bool
  image_url : Option String
  created_at : String
  updated_at : String
  category : Option String
  reading_time_minutes : Option Nat
deriving DecidableEq, Repr

/-- Lightweight article projection stored in the cached list record;
fields exactly as built in `saveArticlesOffline` (`offlineStorage`). -/
structure ArticleListItem where
  id : String
  title : String
  summary : String
  is_premium : Bool
  created_at : String
  updated_at : String
  category : Option String
  reading_time_minutes : Option Nat
deriving DecidableEq, Repr

/-- The projection performed entrywise by `saveArticlesOffline`. -/
def Article.toListItem (a : Article) : ArticleListItem :=
  { id := a.id
    title := a.title
    summary := a.summary
    is_premium := a.is_premium
    created_at := a.created_at
    updated_at := a.updated_at
    category := a.category
    reading_time_minutes := a.reading_time_minutes }

/-- Quiz question row (spec section 3; used by `fetchQuizByArticleId`). -/
structure QuizQuestion where
  id : String
  quiz_id : String
  question : String
  options : List String
  correct_option : Nat
  explanation : Option String
  question_order : Nat
deriving DecidableEq, Repr

/-- Denormalized joined parent-article summary carried on a quiz row
(the `articles (id, title)` join in `fetchQuizzes`). -/
structure ArticleRef where
  id : String
  title : String
deriving DecidableEq, Repr

/-- Full quiz row (spec section 3), with the optional embedded question
sequence and optional denormalized article reference. -/
structure Quiz where
  id : String
  title : String
  description : Option String
  article_id : String
  time_limit_minutes : Option Nat
  passing_score : Nat
  created_at : String
  updated_at : String
  questions : Option (List QuizQuestion)
  articles : Option ArticleRef
deriving DecidableEq, Repr

/-- Lightweight quiz projection stored in the cached list record;
fields exactly as built in `saveQuizzesOffline` (`offlineStorage`). -/
structure QuizListItem where
  id : String
  title : String
  description : Option String
  article_id : String
  time_limit_minutes : Option Nat
  passing_score : Nat
  created_at : String
  updated_at : String
  articles : Option ArticleRef
deriving DecidableEq, Repr

/-- The projection performed entrywise by `saveQuizzesOffline`. -/
def Quiz.toListItem (q : Quiz) : QuizListItem :=
  { id := q.id
    title := q.title
    description := q.description
    article_id := q.article_id
    time_limit_minutes := q.time_limit_minutes
    passing_score := q.passing_score
    created_at := q.created_at
    updated_at := q.updated_at
    articles := q.articles }

/-- Typed image of the namespaced fragment of `AsyncStorage`:
`econquiz_articles`, `econquiz_article_<id>`, `econquiz_quizzes`,
`econquiz_quiz_<id>`, `econquiz_last_sync`. -/
structure Store where
  articlesList : Option (List ArticleListItem)
  articleDetails : List (String × Article)
  quizzesList : Option (List QuizListItem)
  quizDetails : List (String × Quiz)
  lastSync : Option Int
deriving DecidableEq, Repr

/-- The store with no namespaced key present. -/
def Store.empty : Store :=
  { articlesList := none
    articleDetails := []
    quizzesList := none
    quizDetails := []
    lastSync := none }

/-- Storage key of the article list record. -/
def KEYS_ARTICLES : String := "econquiz_articles"

/-- Storage key of the quiz list record. -/
def KEYS_QUIZZES : String := "econquiz_quizzes"

/-- Storage key of the sync clock record. -/
def KEYS_LAST_SYNC : String := "econquiz_last_sync"

/-- Storage key of the detail record of the article with the given id. -/
def articleKey (id : String) : String := "econquiz_article_" ++ id

/-- Storage key of the detail record of the quiz with the given id. -/
def quizKey (id : String) : String := "econquiz_quiz_" ++ id

/-- Per-key failure behaviour of the key-value store adapter: which
`setItem` calls and which `getItem` calls throw a storage error. -/
structure StorageEnv where
  setItemFails : String → Bool
  getItemFails : String → Bool

/-- Nominal storage: no call ever fails. -/
def okStorage : StorageEnv :=
  { setItemFails := fun _ => false, getItemFails := fun _ => false }

/-- Overwrite-or-insert of one entry in an id-keyed association list
(semantics of `AsyncStorage.setItem` on a detail key). -/
def setEntry {α : Type} : List (String × α) → String → α → List (String × α)
  | [], k, v => [(k, v)]
  | p :: rest, k, v => if p.1 = k then (k, v) :: rest else p :: setEntry rest k v

/-- Lookup of one entry in an id-keyed association list (semantics of
`AsyncStorage.getItem` on a detail key). -/
def getEntry {α : Type} (m : List (String × α)) (k : String) : Option α :=
  match m.find? (fun p => p.1 = k) with
  | some p => some p.2
  | none => none

/-- `saveLastSyncTime` of `offlineStorage`: writes the current instant to
the sync-clock key; a storage error is caught and swallowed. -/
def saveLastSyncTime (f : StorageEnv) (now : Int) (s : Store) : Store :=
  if f.setItemFails KEYS_LAST_SYNC then s else { s with lastSync := some now }

/-- The detail-write fan-out of `saveArticlesOffline`: every write whose
own key succeeds takes effect, independently of the others. -/
def writeArticleDetails (f : StorageEnv) (articles : List Article)
    (m : List (String × Article)) : List (String × Article) :=
  articles.foldl
    (fun m a => if f.setItemFails (articleKey a.id) then m else setEntry m a.id a) m

/-- `saveArticlesOffline` of `offlineStorage`.  The list record is written
first (if that write throws, the catch swallows the error and nothing else
happens); then all detail writes are attempted via `Promise.all`; the sync
clock is stamped only when no detail write rejected (a rejection makes the
awaited `Promise.all` throw into the catch, skipping `saveLastSyncTime`). -/
def saveArticlesOffline (f : StorageEnv) (now : Int) (articles : List Article)
    (s : Store) : Store :=
  if f.setItemFails KEYS_ARTICLES then s
  else
    let s1 := { s with articlesList := some (articles.map Article.toListItem) }
    let s2 := { s1 with articleDetails := writeArticleDetails f articles s1.articleDetails }
    if articles.any (fun a => f.setItemFails (articleKey a.id)) then s2
    else saveLastSyncTime f now s2

/-- The detail-write fan-out of `saveQuizzesOffline`. -/
def writeQuizDetails (f : StorageEnv) (quizzes : List Quiz)
    (m : List (String × Quiz)) : List (String × Quiz) :=
  quizzes.foldl
    (fun m q => if f.setItemFails (quizKey q.id) then m else setEntry m q.id q) m

/-- `saveQuizzesOffline` of `offlineStorage`, symmetric to
`saveArticlesOffline`. -/
def saveQuizzesOffline (f : StorageEnv) (now : Int) (quizzes : List Quiz)
    (s : Store) : Store :=
  if f.setItemFails KEYS_QUIZZES then s
  else
    let s1 := { s with quizzesList := some (quizzes.map Quiz.toListItem) }
    let s2 := { s1 with quizDetails := writeQuizDetails f quizzes s1.quizDetails }
    if quizzes.any (fun q => f.setItemFails (quizKey q.id)) then s2
    else saveLastSyncTime f now s2

/-- `getOfflineArticles` of `offlineStorage`: the cached list record, or
`[]` when it is absent or the read throws. -/
def getOfflineArticles (f : StorageEnv) (s : Store) : List ArticleListItem :=
  if f.getItemFails KEYS_ARTICLES then [] else s.articlesList.getD []

/-- `getOfflineArticle` of `offlineStorage`: the detail record under the
id-suffixed key, or `none` when absent or the read throws. -/
def getOfflineArticle (f : StorageEnv) (s : Store) (articleId : String) :
    Option Article :=
  if f.getItemFails (articleKey articleId) then none
  else getEntry s.articleDetails articleId

/-- `getOfflineQuizzes` of `offlineStorage`. -/
def getOfflineQuizzes (f : StorageEnv) (s : Store) : List QuizListItem :=
  if f.getItemFails KEYS_QUIZZES then [] else s.quizzesList.getD []

/-- `getOfflineQuiz` of `offlineStorage`. -/
def getOfflineQuiz (f : StorageEnv) (s : Store) (quizId : String) : Option Quiz :=
  if f.getItemFails (quizKey quizId) then none
  else getEntry s.quizDetails quizId

/-- `getOfflineQuizByArticleId` of `offlineStorage`: first list entry whose
`article_id` matches, resolved through `getOfflineQuiz`; the source guards
with the javascript truthiness test `!quiz.id`, which for a present string
field means the empty string. -/
def getOfflineQuizByArticleId (f : StorageEnv) (s : Store) (articleId : String) :
    Option Quiz :=
  match (getOfflineQuizzes f s).find? (fun q => q.article_id = articleId) with
  | none => none
  | some q => if q.id = "" then none else getOfflineQuiz f s q.id

/-- `getLastSyncTime` of `offlineStorage`. -/
def getLastSyncTime (f : StorageEnv) (s : Store) : Option Int :=
  if f.getItemFails KEYS_LAST_SYNC then none else s.lastSync

/-- `isSyncNeeded` of `offlineStorage`: true when no sync clock exists,
or when `(now - lastSync) / (1000*60*60)` exceeds 24 hours.  The source
computes the quotient in exact floating division, so the comparison is
equivalent to `now - lastSync > 24 * 3600000` milliseconds. -/
def isSyncNeeded (f : StorageEnv) (now : Int) (s : Store) : Bool :=
  match getLastSyncTime f s with
  | none => true
  | some t => decide (now - t > 24 * 3600000)

/-- `clearOfflineData` of `offlineStorage`: removes every key with the
`econquiz_` namespace (all keys of the typed store); a storage error is
caught, leaving the store unchanged. -/
def clearOfflineData (clearFails : Bool) (s : Store) : Store :=
  if clearFails then s else Store.empty

/-- Per-(user, article) progress row of `user_article_progress`. -/
structure ProgressRecord where
  user_id : String
  article_id : String
  completed : Bool
  last_read_at : Int
deriving DecidableEq, Repr

/-- Quiz-attempt row of `quiz_attempts` (spec section 3). -/
structure QuizAttempt where
  id : String
  user_id : String
  quiz_id : String
  score : Int
  completed_at : Int
  created_at : Int
deriving DecidableEq, Repr

/-- One user answer row inserted into `quiz_answers`. -/
structure AttemptAnswer where
  attempt_id : String
  question_id : String
  selected_option : Int
deriving DecidableEq, Repr

/-- Environment of one service call: the connectivity oracle result, the
transport health of the remote gateway, the backend tables (each in the
row order the backend would return, its `order by` already applied), the
current instant, and the storage failure behaviour. -/
structure Env where
  connected : Bool
  remoteOk : Bool
  articlesTable : List Article
  quizzesTable : List Quiz
  questionsTable : List QuizQuestion
  nextAttemptId : String
  now : Int
  storage : StorageEnv

/-- Remote and local durable state threaded through the write operations. -/
structure World where
  cache : Store
  remoteProgress : List ProgressRecord
  remoteAttempts : List QuizAttempt
  remoteAnswers : List AttemptAnswer

/-- Result of a supabase `.single()` query: exactly one row succeeds, zero
rows yield the `PGRST116` error, several rows yield a different error. -/
def remoteSingle {α : Type} (rows : List α) : Option α :=
  match rows with
  | [x] => some x
  | _ => none

/-- The fallback read of `fetchArticles`: cached list entries filtered by
`isPremiumUser || !article.is_premium`. -/
def articlesFallback (f : StorageEnv) (isPremiumUser : Bool) (s : Store) :
    List ArticleListItem :=
  (getOfflineArticles f s).filter (fun a => isPremiumUser || !a.is_premium)

/-- View of one returned article entry: the remote path returns full rows,
the fallback path returns list projections (the source casts
`Partial<Article>` to `Article`, so fallback entries genuinely lack the
`content` and `image_url` properties). -/
structure ArticleView where
  id : String
  title : String
  summary : String
  is_premium : Bool
  created_at : String
  updated_at : String
  category : Option String
  reading_time_minutes : Option Nat
  content : Option String
  image_url : Option String
deriving DecidableEq, Repr

/-- View of a full article row. -/
def Article.toView (a : Article) : ArticleView :=
  { id := a.id
    title := a.title
    summary := a.summary
    is_premium := a.is_premium
    created_at := a.created_at
    updated_at := a.updated_at
    category := a.category
    reading_time_minutes := a.reading_time_minutes
    content := some a.content
    image_url := a.image_url }

/-- View of a cached list projection (no content, no image). -/
def ArticleListItem.toView (a : ArticleListItem) : ArticleView :=
  { id := a.id
    title := a.title
    summary := a.summary
    is_premium := a.is_premium
    created_at := a.created_at
    updated_at := a.updated_at
    category := a.category
    reading_time_minutes := a.reading_time_minutes
    content := none
    image_url := none }

/-- `fetchArticles` of `articleService`.  Online: query all articles (with
`eq is_premium false` added for non-premium callers), cache the result via
`saveArticlesOffline`, return it.  Offline, or when the remote query
errors (the `throw error` lands in the catch): read the cached list and
filter premium entries for non-premium callers.  No error ever reaches
the caller. -/
def fetchArticles (env : Env) (isPremiumUser : Bool) (s : Store) :
    List ArticleView × Store :=
  if env.connected then
    if env.remoteOk then
      let data :=
        if isPremiumUser then env.articlesTable
        else env.articlesTable.filter (fun a => a.is_premium = false)
      (data.map Article.toView, saveArticlesOffline env.storage env.now data s)
    else ((articlesFallback env.storage isPremiumUser s).map ArticleListItem.toView, s)
  else ((articlesFallback env.storage isPremiumUser s).map ArticleListItem.toView, s)

/-- `fetchArticleById` of `articleService`.  Online with a unique remote
row: cache `[row]` via `saveArticlesOffline` and return it.  Offline, or
on any remote error (zero rows, several rows, transport): read the detail
record from the cache, and fail with a not-found error when it is absent
(the offline branch throws into the catch, which retries the same lookup
before throwing the final error). -/
def fetchArticleById (env : Env) (articleId : String) (s : Store) :
    Except String Article × Store :=
  if env.connected then
    if env.remoteOk then
      match remoteSingle (env.articlesTable.filter (fun a => a.id = articleId)) with
      | some data =>
          (Except.ok data, saveArticlesOffline env.storage env.now [data] s)
      | none =>
          match getOfflineArticle env.storage s articleId with
          | some a => (Except.ok a, s)
          | none => (Except.error "Article not found", s)
    else
      match getOfflineArticle env.storage s articleId with
      | some a => (Except.ok a, s)
      | none => (Except.error "Article not found", s)
  else
    match getOfflineArticle env.storage s articleId with
    | some a => (Except.ok a, s)
    | none => (Except.error "Article not found", s)

/-- `updateArticleProgress` of `articleService`.  Offline: log and return,
touching nothing.  Online: upsert the `(user, article)` progress row;
remote errors are rethrown to the caller. -/
def updateArticleProgress (env : Env) (userId articleId : String)
    (completed : Bool) (w : World) : Except String Unit × World :=
  if !env.connected then (Except.ok (), w)
  else if env.remoteOk then
    if w.remoteProgress.any (fun p => p.user_id = userId && p.article_id = articleId) then
      (Except.ok (),
        { w with remoteProgress :=
            w.remoteProgress.map (fun p =>
              if p.user_id = userId && p.article_id = articleId then
                { p with completed := completed, last_read_at := env.now }
              else p) })
    else
      (Except.ok (),
        { w with remoteProgress :=
            w.remoteProgress ++
              [{ user_id := userId, article_id := articleId,
                 completed := completed, last_read_at := env.now }] })
  else (Except.error "progress update failed", w)

/-- `saveQuizAttempt` of `quizService`.  Offline: return a synthesized
placeholder (`id = "offline-" ++ Date.now()`) and persist nothing.
Online: insert the attempt row and the answer rows; remote errors are
rethrown. -/
def saveQuizAttempt (env : Env) (userId quizId : String) (score : Int)
    (answers : List (String × Int)) (w : World) :
    Except String QuizAttempt × World :=
  if !env.connected then
    (Except.ok
      { id := "offline-" ++ toString env.now
        user_id := userId
        quiz_id := quizId
        score := score
        completed_at := env.now
        created_at := env.now }, w)
  else if env.remoteOk then
    let attempt : QuizAttempt :=
      { id := env.nextAttemptId
        user_id := userId
        quiz_id := quizId
        score := score
        completed_at := env.now
        created_at := env.now }
    (Except.ok attempt,
      { w with
          remoteAttempts := w.remoteAttempts ++ [attempt]
          remoteAnswers := w.remoteAnswers ++
            answers.map (fun ans =>
              { attempt_id := attempt.id
                question_id := ans.1
                selected_option := ans.2 }) })
  else (Except.error "attempt save failed", w)

/-- Insert a question into a list already sorted by `question_order`. -/
def insertByOrder (q : QuizQuestion) : List QuizQuestion → List QuizQuestion
  | [] => [q]
  | x :: xs =>
      if q.question_order ≤ x.question_order then q :: x :: xs
      else x :: insertByOrder q xs

/-- The backend ordering `order by question_order ascending`. -/
def sortByQuestionOrder (qs : List QuizQuestion) : List QuizQuestion :=
  qs.foldr insertByOrder []

/-- `fetchQuizByArticleId` of `quizService`.  Online: `.single()` query of
the quiz by article id — zero rows is the `PGRST116` error and returns
`null` without touching the cache; exactly one row fetches the ordered
questions, merges them in, caches `[completeQuiz]` via
`saveQuizzesOffline`, and returns it; several rows or transport errors
throw into the catch.  Offline and on caught errors:
`getOfflineQuizByArticleId`. -/
def fetchQuizByArticleId (env : Env) (articleId : String) (s : Store) :
    Option Quiz × Store :=
  if env.connected then
    if env.remoteOk then
      match env.quizzesTable.filter (fun q => q.article_id = articleId) with
      | [] => (none, s)
      | [quizData] =>
          let qs := sortByQuestionOrder
            (env.questionsTable.filter (fun qq => qq.quiz_id = quizData.id))
          let completeQuiz := { quizData with questions := some qs }
          (some completeQuiz,
            saveQuizzesOffline env.storage env.now [completeQuiz] s)
      | _ => (getOfflineQuizByArticleId env.storage s articleId, s)
    else (getOfflineQuizByArticleId env.storage s articleId, s)
  else (getOfflineQuizByArticleId env.storage s articleId, s)

/-! ### Association-list lemmas -/

theorem getEntry_nil {α : Type} (k : String) :
    getEntry ([] : List (String × α)) k = none := rfl

theorem getEntry_cons {α : Type} (p : String × α) (m : List (String × α)) (k : String) :
    getEntry (p :: m) k = if p.1 = k then some p.2 else getEntry m k := by
  by_cases hp : p.1 = k
  · simp [getEntry, List.find?, hp]
  · simp [getEntry, List.find?, hp]

theorem getEntry_setEntry_same {α : Type} (m : List (String × α)) (k : String) (v : α) :
    getEntry (setEntry m k v) k = some v := by
  induction m with
  | nil => simp [setEntry, getEntry_cons, getEntry_nil]
  | cons p rest ih =>
      by_cases hp : p.1 = k
      · simp [setEntry, hp, getEntry_cons]
      · simp [setEntry, hp, getEntry_cons, ih]

theorem getEntry_setEntry_ne {α : Type} (m : List (String × α)) (k k' : String) (v : α)
    (h : k' ≠ k) : getEntry (setEntry m k v) k' = getEntry m k' := by
  have hk : ¬ k = k' := fun hh => h hh.symm
  induction m with
  | nil => simp [setEntry, getEntry_cons, getEntry_nil, hk]
  | cons p rest ih =>
      by_cases hp : p.1 = k
      · have hp' : ¬ p.1 = k' := by rw [hp]; exact hk
        simp [setEntry, hp, getEntry_cons, hk, hp']
      · simp [setEntry, hp, getEntry_cons, ih]

/-! ### Detail-write fan-out lemmas -/

theorem writeArticleDetails_nil (f : StorageEnv) (m : List (String × Article)) :
    writeArticleDetails f [] m = m := rfl

theorem writeArticleDetails_cons (f : StorageEnv) (b : Article)
    (rest : List Article) (m : List (String × Article)) :
    writeArticleDetails f (b :: rest) m =
      writeArticleDetails f rest
        (if f.setItemFails (articleKey b.id) then m else setEntry m b.id b) := rfl

theorem writeArticleDetails_getEntry_of_notin (f : StorageEnv) :
    ∀ (articles : List Article) (m : List (String × Article)) (k : String),
      (∀ a ∈ articles, a.id ≠ k) →
      getEntry (writeArticleDetails f articles m) k = getEntry m k := by
  intro articles
  induction articles with
  | nil => intro m k _; rfl
  | cons b rest ih =>
      intro m k h
      have hb : b.id ≠ k := h b (List.mem_cons_self b rest)
      have hrest : ∀ a ∈ rest, a.id ≠ k := fun a ha => h a (List.mem_cons_of_mem b ha)
      rw [writeArticleDetails_cons]
      by_cases hf : f.setItemFails (articleKey b.id)
      · rw [if_pos hf]
        exact ih m k hrest
      · rw [if_neg hf, ih (setEntry m b.id b) k hrest,
          getEntry_setEntry_ne m b.id k b (Ne.symm hb)]

theorem writeArticleDetails_getEntry_of_mem (f : StorageEnv) :
    ∀ (articles : List Article) (m : List (String × Article)),
      (articles.map Article.id).Nodup → ∀ a ∈ articles,
      f.setItemFails (articleKey a.id) = false →
      getEntry (writeArticleDetails f articles m) a.id = some a := by
  intro articles
  induction articles with
  | nil => intro m _ a ha; cases ha
  | cons b rest ih =>
      intro m hnd a ha hok
      rw [List.map_cons, List.nodup_cons] at hnd
      rw [writeArticleDetails_cons]
      rcases List.mem_cons.mp ha with rfl | hmem
      · have hrest : ∀ x ∈ rest, x.id ≠ a.id := by
          intro x hx hEq
          exact hnd.1 (hEq ▸ List.mem_map_of_mem Article.id hx)
        rw [if_neg (by rw [hok]; exact Bool.false_ne_true),
          writeArticleDetails_getEntry_of_notin f rest (setEntry m a.id a) a.id hrest,
          getEntry_setEntry_same]
      · by_cases hf : f.setItemFails (articleKey b.id)
        · rw [if_pos hf]; exact ih m hnd.2 a hmem hok
        · rw [if_neg hf]; exact ih (setEntry m b.id b) hnd.2 a hmem hok

theorem writeQuizDetails_nil (f : StorageEnv) (m : List (String × Quiz)) :
    writeQuizDetails f [] m = m := rfl

theorem writeQuizDetails_cons (f : StorageEnv) (b : Quiz)
    (rest : List Quiz) (m : List (String × Quiz)) :
    writeQuizDetails f (b :: rest) m =
      writeQuizDetails f rest
        (if f.setItemFails (quizKey b.id) then m else setEntry m b.id b) := rfl

theorem writeQuizDetails_getEntry_of_notin (f : StorageEnv) :
    ∀ (quizzes : List Quiz) (m : List (String × Quiz)) (k : String),
      (∀ q ∈ quizzes, q.id ≠ k) →
      getEntry (writeQuizDetails f quizzes m) k = getEntry m k := by
  intro quizzes
  induction quizzes with
  | nil => intro m k _; rfl
  | cons b rest ih =>
      intro m k h
      have hb : b.id ≠ k := h b (List.mem_cons_self b rest)
      have hrest : ∀ q ∈ rest, q.id ≠ k := fun q hq => h q (List.mem_cons_of_mem b hq)
      rw [writeQuizDetails_cons]
      by_cases hf : f.setItemFails (quizKey b.id)
      · rw [if_pos hf]
        exact ih m k hrest
      · rw [if_neg hf, ih (setEntry m b.id b) k hrest,
          getEntry_setEntry_ne m b.id k b (Ne.symm hb)]

theorem writeQuizDetails_getEntry_of_mem (f : StorageEnv) :
    ∀ (quizzes : List Quiz) (m : List (String × Quiz)),
      (quizzes.map Quiz.id).Nodup → ∀ q ∈ quizzes,
      f.setItemFails (quizKey q.id) = false →
      getEntry (writeQuizDetails f quizzes m) q.id = some q := by
  intro quizzes
  induction quizzes with
  | nil => intro m _ q hq; cases hq
  | cons b rest ih =>
      intro m hnd q hq hok
      rw [List.map_cons, List.nodup_cons] at hnd
      rw [writeQuizDetails_cons]
      rcases List.mem_cons.mp hq with rfl | hmem
      · have hrest : ∀ x ∈ rest, x.id ≠ q.id := by
          intro x hx hEq
          exact hnd.1 (hEq ▸ List.mem_map_of_mem Quiz.id hx)
        rw [if_neg (by rw [hok]; exact Bool.false_ne_true),
          writeQuizDetails_getEntry_of_notin f rest (setEntry m q.id q) q.id hrest,
          getEntry_setEntry_same]
      · by_cases hf : f.setItemFails (quizKey b.id)
        · rw [if_pos hf]; exact ih m hnd.2 q hmem hok
        · rw [if_neg hf]; exact ih (setEntry m b.id b) hnd.2 q hmem hok

/-! ### Projection lemmas for the save operations -/

theorem saveArticlesOffline_articlesList (f : StorageEnv) (now : Int)
    (articles : List Article) (s : Store) :
    (saveArticlesOffline f now articles s).articlesList =
      if f.setItemFails KEYS_ARTICLES then s.articlesList
      else some (articles.map Article.toListItem) := by
  by_cases h1 : f.setItemFails KEYS_ARTICLES
  · simp [saveArticlesOffline, h1]
  · by_cases h2 : articles.any fun a => f.setItemFails (articleKey a.id)
    · simp [saveArticlesOffline, h1, h2]
    · by_cases h3 : f.setItemFails KEYS_LAST_SYNC <;>
        simp [saveArticlesOffline, saveLastSyncTime, h1, h2, h3]

theorem saveArticlesOffline_articleDetails (f : StorageEnv) (now : Int)
    (articles : List Article) (s : Store) :
    (saveArticlesOffline f now articles s).articleDetails =
      if f.setItemFails KEYS_ARTICLES then s.articleDetails
      else writeArticleDetails f articles s.articleDetails := by
  by_cases h1 : f.setItemFails KEYS_ARTICLES
  · simp [saveArticlesOffline, h1]
  · by_cases h2 : articles.any fun a => f.setItemFails (articleKey a.id)
    · simp [saveArticlesOffline, h1, h2]
    · by_cases h3 : f.setItemFails KEYS_LAST_SYNC <;>
        simp [saveArticlesOffline, saveLastSyncTime, h1, h2, h3]

theorem saveArticlesOffline_lastSync (f : StorageEnv) (now : Int)
    (articles : List Article) (s : Store) :
    (saveArticlesOffline f now articles s).lastSync =
      if f.setItemFails KEYS_ARTICLES then s.lastSync
      else if articles.any (fun a => f.setItemFails (articleKey a.id)) then s.lastSync
      else if f.setItemFails KEYS_LAST_SYNC then s.lastSync
      else some now := by
  by_cases h1 : f.setItemFails KEYS_ARTICLES
  · simp [saveArticlesOffline, h1]
  · by_cases h2 : articles.any fun a => f.setItemFails (articleKey a.id)
    · simp [saveArticlesOffline, h1, h2]
    · by_cases h3 : f.setItemFails KEYS_LAST_SYNC <;>
        simp [saveArticlesOffline, saveLastSyncTime, h1, h2, h3]

theorem saveArticlesOffline_quizzesList (f : StorageEnv) (now : Int)
    (articles : List Article) (s : Store) :
    (saveArticlesOffline f now articles s).quizzesList = s.quizzesList := by
  by_cases h1 : f.setItemFails KEYS_ARTICLES
  · simp [saveArticlesOffline, h1]
  · by_cases h2 : articles.any fun a => f.setItemFails (articleKey a.id)
    · simp [saveArticlesOffline, h1, h2]
    · by_cases h3 : f.setItemFails KEYS_LAST_SYNC <;>
        simp [saveArticlesOffline, saveLastSyncTime, h1, h2, h3]

theorem saveArticlesOffline_quizDetails (f : StorageEnv) (now : Int)
    (articles : List Article) (s : Store) :
    (saveArticlesOffline f now articles s).quizDetails = s.quizDetails := by
  by_cases h1 : f.setItemFails KEYS_ARTICLES
  · simp [saveArticlesOffline, h1]
  · by_cases h2 : articles.any fun a => f.setItemFails (articleKey a.id)
    · simp [saveArticlesOffline, h1, h2]
    · by_cases h3 : f.setItemFails KEYS_LAST_SYNC <;>
        simp [saveArticlesOffline, saveLastSyncTime, h1, h2, h3]

theorem saveQuizzesOffline_quizzesList (f : StorageEnv) (now : Int)
    (quizzes : List Quiz) (s : Store) :
    (saveQuizzesOffline f now quizzes s).quizzesList =
      if f.setItemFails KEYS_QUIZZES then s.quizzesList
      else some (quizzes.map Quiz.toListItem) := by
  by_cases h1 : f.setItemFails KEYS_QUIZZES
  · simp [saveQuizzesOffline, h1]
  · by_cases h2 : quizzes.any fun q => f.setItemFails (quizKey q.id)
    · simp [saveQuizzesOffline, h1, h2]
    · by_cases h3 : f.setItemFails KEYS_LAST_SYNC <;>
        simp [saveQuizzesOffline, saveLastSyncTime, h1, h2, h3]

theorem saveQuizzesOffline_quizDetails (f : StorageEnv) (now : Int)
    (quizzes : List Quiz) (s : Store) :
    (saveQuizzesOffline f now quizzes s).quizDetails =
      if f.setItemFails KEYS_QUIZZES then s.quizDetails
      else writeQuizDetails f quizzes s.quizDetails := by
  by_cases h1 : f.setItemFails KEYS_QUIZZES
  · simp [saveQuizzesOffline, h1]
  · by_cases h2 : quizzes.any fun q => f.setItemFails (quizKey q.id)
    · simp [saveQuizzesOffline, h1, h2]
    · by_cases h3 : f.setItemFails KEYS_LAST_SYNC <;>
        simp [saveQuizzesOffline, saveLastSyncTime, h1, h2, h3]

theorem saveQuizzesOffline_lastSync (f : StorageEnv) (now : Int)
    (quizzes : List Quiz) (s : Store) :
    (saveQuizzesOffline f now quizzes s).lastSync =
      if f.setItemFails KEYS_QUIZZES then s.lastSync
      else if quizzes.any (fun q => f.setItemFails (quizKey q.id)) then s.lastSync
      else if f.setItemFails KEYS_LAST_SYNC then s.lastSync
      else some now := by
  by_cases h1 : f.setItemFails KEYS_QUIZZES
  · simp [saveQuizzesOffline, h1]
  · by_cases h2 : quizzes.any fun q => f.setItemFails (quizKey q.id)
    · simp [saveQuizzesOffline, h1, h2]
    · by_cases h3 : f.setItemFails KEYS_LAST_SYNC <;>
        simp [saveQuizzesOffline, saveLastSyncTime, h1, h2, h3]

theorem saveQuizzesOffline_articlesList (f : StorageEnv) (now : Int)
    (quizzes : List Quiz) (s : Store) :
    (saveQuizzesOffline f now quizzes s).articlesList = s.articlesList := by
  by_cases h1 : f.setItemFails KEYS_QUIZZES
  · simp [saveQuizzesOffline, h1]
  · by_cases h2 : quizzes.any fun q => f.setItemFails (quizKey q.id)
    · simp [saveQuizzesOffline, h1, h2]
    · by_cases h3 : f.setItemFails KEYS_LAST_SYNC <;>
        simp [saveQuizzesOffline, saveLastSyncTime, h1, h2, h3]

theorem saveQuizzesOffline_articleDetails (f : StorageEnv) (now : Int)
    (quizzes : List Quiz) (s : Store) :
    (saveQuizzesOffline f now quizzes s).articleDetails = s.articleDetails := by
  by_cases h1 : f.setItemFails KEYS_QUIZZES
  · simp [saveQuizzesOffline, h1]
  · by_cases h2 : quizzes.any fun q => f.setItemFails (quizKey q.id)
    · simp [saveQuizzesOffline, h1, h2]
    · by_cases h3 : f.setItemFails KEYS_LAST_SYNC <;>
        simp [saveQuizzesOffline, saveLastSyncTime, h1, h2, h3]

theorem okStorage_setItemFails (k : String) : okStorage.setItemFails k = false := rfl

theorem okStorage_getItemFails (k : String) : okStorage.getItemFails k = false := rfl

/-! ### Concrete sample data for witnesses and counterexamples -/

/-- Sample non-premium article. -/
def artFree : Article :=
  { id := "a1", title := "Supply", content := "body1", summary := "s1",
    is_premium := false, image_url := none, created_at := "2024-01-01",
    updated_at := "2024-01-02", category := some "econ",
    reading_time_minutes := some 5 }

/-- Sample premium article. -/
def artPaid : Article :=
  { id := "a2", title := "Demand", content := "body2", summary := "s2",
    is_premium := true, image_url := some "img", created_at := "2024-02-01",
    updated_at := "2024-02-02", category := none,
    reading_time_minutes := none }

/-- Sample quiz question. -/
def question1 : QuizQuestion :=
  { id := "qq1", quiz_id := "q1", question := "Which curve", options := ["x", "y"],
    correct_option := 0, explanation := none, question_order := 1 }

/-- Sample quiz owned by article `a1`. -/
def quiz1 : Quiz :=
  { id := "q1", title := "Quiz One", description := some "d",
    article_id := "a1", time_limit_minutes := some 10, passing_score := 60,
    created_at := "2024-01-03", updated_at := "2024-01-04",
    questions := some [question1], articles := none }

/-- Environment that is connected with a healthy remote gateway. -/
def onlineEnv : Env :=
  { connected := true, remoteOk := true, articlesTable := [artFree, artPaid],
    quizzesTable := [quiz1], questionsTable := [question1],
    nextAttemptId := "att1", now := 42, storage := okStorage }

/-- Environment that is disconnected. -/
def offlineEnv : Env :=
  { connected := false, remoteOk := true, articlesTable := [artFree, artPaid],
    quizzesTable := [quiz1], questionsTable := [question1],
    nextAttemptId := "att1", now := 42, storage := okStorage }

/-- Environment that is connected but whose remote gateway calls throw. -/
def failingRemoteEnv : Env :=
  { connected := true, remoteOk := false, articlesTable := [], quizzesTable := [],
    questionsTable := [], nextAttemptId := "att1", now := 42, storage := okStorage }

/-- World with an empty cache and empty remote tables. -/
def emptyWorld : World :=
  { cache := Store.empty, remoteProgress := [], remoteAttempts := [],
    remoteAnswers := [] }

/-! ### Claim C2 -/

/-- C2: saving a list of N articles (resp. quizzes) through
`saveArticlesOffline` (resp. `saveQuizzesOffline`) and reading back gives
exactly the N lightweight projections, identities matching the input in
order, and each saved id resolves through the detail getter to a record
equal to the corresponding input entity.  The input ids are assumed
pairwise distinct (they are primary keys of the backend tables; with a
duplicated id the notion of corresponding entity is not well defined and
the concurrent duplicate-key writes of the source are unordered). -/
theorem C2_theorem (now : Int) (s : Store)
    (articles : List Article) (quizzes : List Quiz)
    (hA : (articles.map Article.id).Nodup) (hQ : (quizzes.map Quiz.id).Nodup) :
    getOfflineArticles okStorage (saveArticlesOffline okStorage now articles s) =
        articles.map Article.toListItem ∧
    (getOfflineArticles okStorage (saveArticlesOffline okStorage now articles s)).map
        ArticleListItem.id = articles.map Article.id ∧
    (∀ a ∈ articles,
      getOfflineArticle okStorage (saveArticlesOffline okStorage now articles s) a.id
        = some a) ∧
    getOfflineQuizzes okStorage (saveQuizzesOffline okStorage now quizzes s) =
        quizzes.map Quiz.toListItem ∧
    (getOfflineQuizzes okStorage (saveQuizzesOffline okStorage now quizzes s)).map
        QuizListItem.id = quizzes.map Quiz.id ∧
    (∀ q ∈ quizzes,
      getOfflineQuiz okStorage (saveQuizzesOffline okStorage now quizzes s) q.id
        = some q) := by
  have hListA : getOfflineArticles okStorage
      (saveArticlesOffline okStorage now articles s) = articles.map Article.toListItem := by
    simp [getOfflineArticles, okStorage_getItemFails, saveArticlesOffline_articlesList,
      okStorage_setItemFails]
  have hListQ : getOfflineQuizzes okStorage
      (saveQuizzesOffline okStorage now quizzes s) = quizzes.map Quiz.toListItem := by
    simp [getOfflineQuizzes, okStorage_getItemFails, saveQuizzesOffline_quizzesList,
      okStorage_setItemFails]
  refine ⟨hListA, ?_, ?_, hListQ, ?_, ?_⟩
  · rw [hListA, List.map_map]
    rfl
  · intro a ha
    have hdet : (saveArticlesOffline okStorage now articles s).articleDetails =
        writeArticleDetails okStorage articles s.articleDetails := by
      simp [saveArticlesOffline_articleDetails, okStorage_setItemFails]
    simp only [getOfflineArticle, okStorage_getItemFails, Bool.false_eq_true,
      if_false, hdet]
    exact writeArticleDetails_getEntry_of_mem okStorage articles s.articleDetails hA a ha rfl
  · rw [hListQ, List.map_map]
    rfl
  · intro q hq
    have hdet : (saveQuizzesOffline okStorage now quizzes s).quizDetails =
        writeQuizDetails okStorage quizzes s.quizDetails := by
      simp [saveQuizzesOffline_quizDetails, okStorage_setItemFails]
    simp only [getOfflineQuiz, okStorage_getItemFails, Bool.false_eq_true,
      if_false, hdet]
    exact writeQuizDetails_getEntry_of_mem okStorage quizzes s.quizDetails hQ q hq rfl

/-- C2 witness: the round trip at a concrete two-article, one-quiz input. -/
theorem C2_witness :
    getOfflineArticles okStorage
        (saveArticlesOffline okStorage 5 [artFree, artPaid] Store.empty) =
      [artFree.toListItem, artPaid.toListItem] ∧
    getOfflineArticle okStorage
        (saveArticlesOffline okStorage 5 [artFree, artPaid] Store.empty) artPaid.id =
      some artPaid ∧
    getOfflineQuiz okStorage
        (saveQuizzesOffline okStorage 5 [quiz1] Store.empty) quiz1.id = some quiz1 :=
  ⟨(C2_theorem 5 Store.empty [artFree, artPaid] [quiz1] (by decide) (by decide)).1,
   (C2_theorem 5 Store.empty [artFree, artPaid] [quiz1] (by decide) (by decide)).2.2.1
      artPaid (by simp),
   (C2_theorem 5 Store.empty [artFree, artPaid] [quiz1] (by decide) (by decide)).2.2.2.2.2
      quiz1 (by simp)⟩

/-! ### Claim C6 -/

/-- C6: `isSyncNeeded` is true when no sync clock exists (in particular
right after a successful `clearOfflineData`), false immediately after a
successful save of either entity list, and true whenever strictly more
than 24 hours separate the stored clock from now. -/
theorem C6_theorem :
    (∀ (now : Int) (s : Store), s.lastSync = none →
      isSyncNeeded okStorage now s = true) ∧
    (∀ (now : Int) (s : Store),
      isSyncNeeded okStorage now (clearOfflineData false s) = true) ∧
    (∀ (now : Int) (s : Store) (articles : List Article),
      isSyncNeeded okStorage now (saveArticlesOffline okStorage now articles s) = false) ∧
    (∀ (now : Int) (s : Store) (quizzes : List Quiz),
      isSyncNeeded okStorage now (saveQuizzesOffline okStorage now quizzes s) = false) ∧
    (∀ (now t : Int) (s : Store), s.lastSync = some t → now - t > 24 * 3600000 →
      isSyncNeeded okStorage now s = true) := by
  refine ⟨?_, ?_, ?_, ?_, ?_⟩
  · intro now s h
    simp [isSyncNeeded, getLastSyncTime, okStorage_getItemFails, h]
  · intro now s
    simp [isSyncNeeded, getLastSyncTime, okStorage_getItemFails, clearOfflineData,
      Store.empty]
  · intro now s articles
    have h : (saveArticlesOffline okStorage now articles s).lastSync = some now := by
      simp [saveArticlesOffline_lastSync, okStorage_setItemFails]
    simp [isSyncNeeded, getLastSyncTime, okStorage_getItemFails, h]
  · intro now s quizzes
    have h : (saveQuizzesOffline okStorage now quizzes s).lastSync = some now := by
      simp [saveQuizzesOffline_lastSync, okStorage_setItemFails]
    simp [isSyncNeeded, getLastSyncTime, okStorage_getItemFails, h]
  · intro now t s h ht
    simp only [isSyncNeeded, getLastSyncTime, okStorage_getItemFails, Bool.false_eq_true,
      if_false, h]
    exact decide_eq_true ht

/-- C6 witness: the staleness check at concrete stores and instants. -/
theorem C6_witness :
    isSyncNeeded okStorage 0 (clearOfflineData false Store.empty) = true ∧
    isSyncNeeded okStorage 7 (saveArticlesOffline okStorage 7 [artFree] Store.empty) = false ∧
    isSyncNeeded okStorage (24 * 3600000 + 1)
      { Store.empty with lastSync := some 0 } = true :=
  ⟨C6_theorem.2.1 0 Store.empty,
   C6_theorem.2.2.1 7 Store.empty [artFree],
   C6_theorem.2.2.2.2 (24 * 3600000 + 1) 0 { Store.empty with lastSync := some 0 }
     rfl (by decide)⟩

/-! ### Claim C7 -/

/-- C7: `updateArticleProgress` while disconnected completes without error
and changes nothing: the cache, the key-value store and the remote tables
are returned exactly as they were. -/
theorem C7_theorem (env : Env) (userId articleId : String) (completed : Bool)
    (w : World) (hc : env.connected = false) :
    updateArticleProgress env userId articleId completed w = (Except.ok (), w) := by
  simp [updateArticleProgress, hc]

/-- C7 witness: the disconnected progress update at a concrete input. -/
theorem C7_witness :
    updateArticleProgress offlineEnv "u1" "a1" true emptyWorld =
      (Except.ok (), emptyWorld) :=
  C7_theorem offlineEnv "u1" "a1" true emptyWorld rfl

/-! ### Claim C8 -/

/-- C8: `saveQuizAttempt` while disconnected returns a locally synthesized
placeholder attempt whose identifier is "offline-" followed by the current
instant and which carries the given user id, quiz id and score, while the
cache, the key-value store and the remote tables are left untouched. -/
theorem C8_theorem (env : Env) (userId quizId : String) (score : Int)
    (answers : List (String × Int)) (w : World) (hc : env.connected = false) :
    saveQuizAttempt env userId quizId score answers w =
      (Except.ok
        { id := "offline-" ++ toString env.now, user_id := userId,
          quiz_id := quizId, score := score, completed_at := env.now,
          created_at := env.now }, w) := by
  simp [saveQuizAttempt, hc]

/-- C8 witness: the disconnected attempt save at a concrete input. -/
theorem C8_witness :
    saveQuizAttempt offlineEnv "u1" "q1" 80 [("qq1", 0)] emptyWorld =
      (Except.ok
        { id := "offline-" ++ toString offlineEnv.now, user_id := "u1",
          quiz_id := "q1", score := 80, completed_at := offlineEnv.now,
          created_at := offlineEnv.now }, emptyWorld) :=
  C8_theorem offlineEnv "u1" "q1" 80 [("qq1", 0)] emptyWorld rfl

/-! ### Claim C1 -/

/-- Store holding exactly one cached article-list entry, a premium one,
with its detail record and a sync clock. -/
def c1Store : Store :=
  { articlesList := some [artPaid.toListItem]
    articleDetails := [("a2", artPaid)]
    quizzesList := none
    quizDetails := []
    lastSync := some 0 }

/-- C1 counterexample: the device is connected, the remote call throws,
and the cache holds N = 1 previously saved article (a premium one), yet
`fetchArticles false` returns 0 entries instead of the 1 cached entry:
the fallback path filters premium entries away from non-premium callers,
so the claim "returns those N cached entries" fails as stated. -/
theorem C1_counterexample :
    (getOfflineArticles okStorage c1Store).length = 1 ∧
    ((fetchArticles failingRemoteEnv false c1Store).1).length = 0 := by
  constructor <;> rfl

/-- C1 (amended): if the device is connected and the remote call throws,
`fetchArticles` swallows the error and returns the cached entries that
pass the premium entitlement filter — in particular all N cached entries
when the caller is premium — and the store is left untouched; no error is
ever observable to the caller. -/
theorem C1_theorem (env : Env) (isPremiumUser : Bool) (s : Store)
    (hc : env.connected = true) (hr : env.remoteOk = false)
    (hst : env.storage = okStorage) :
    (fetchArticles env isPremiumUser s).1 =
      ((getOfflineArticles okStorage s).filter
        (fun a => isPremiumUser || !a.is_premium)).map ArticleListItem.toView ∧
    (fetchArticles env isPremiumUser s).2 = s ∧
    (isPremiumUser = true →
      ((fetchArticles env isPremiumUser s).1).length =
        (getOfflineArticles okStorage s).length) := by
  refine ⟨?_, ?_, ?_⟩
  · simp [fetchArticles, hc, hr, articlesFallback, hst]
  · simp [fetchArticles, hc, hr]
  · intro hp
    subst hp
    simp [fetchArticles, hc, hr, articlesFallback, hst]

/-- C1 witness: the amended fallback behaviour at a concrete store with
one cached premium article and a premium caller. -/
theorem C1_witness :
    ((fetchArticles failingRemoteEnv true c1Store).1 =
      ((getOfflineArticles okStorage c1Store).filter
        (fun a => true || !a.is_premium)).map ArticleListItem.toView) ∧
    ((fetchArticles failingRemoteEnv true c1Store).2 = c1Store) ∧
    (true = true →
      ((fetchArticles failingRemoteEnv true c1Store).1).length =
        (getOfflineArticles okStorage c1Store).length) :=
  C1_theorem failingRemoteEnv true c1Store rfl rfl rfl

/-! ### Claim C3 -/

/-- Store with a mixed premium/non-premium cached article list. -/
def mixedStore : Store :=
  { articlesList := some [artFree.toListItem, artPaid.toListItem]
    articleDetails := [("a1", artFree), ("a2", artPaid)]
    quizzesList := none
    quizDetails := []
    lastSync := some 0 }

/-- C3: on the offline path `fetchArticles false` returns exactly the
cached entries whose premium flag is false and `fetchArticles true`
returns all cached entries; and a non-premium caller never receives a
premium-flagged article on any path (remote success, remote-failure
fallback, or offline). -/
theorem C3_theorem (env : Env) (s : Store) (hst : env.storage = okStorage) :
    (env.connected = false →
      (fetchArticles env false s).1 =
        ((getOfflineArticles okStorage s).filter
          (fun a => !a.is_premium)).map ArticleListItem.toView) ∧
    (env.connected = false →
      (fetchArticles env true s).1 =
        (getOfflineArticles okStorage s).map ArticleListItem.toView) ∧
    (∀ v ∈ (fetchArticles env false s).1, v.is_premium = false) := by
  refine ⟨?_, ?_, ?_⟩
  · intro hc
    simp [fetchArticles, hc, articlesFallback, hst]
  · intro hc
    simp [fetchArticles, hc, articlesFallback, hst]
  · intro v hv
    by_cases hc : env.connected
    · by_cases hr : env.remoteOk
      · simp [fetchArticles, hc, hr, List.mem_map, List.mem_filter] at hv
        obtain ⟨a, ⟨haT, hap⟩, rfl⟩ := hv
        simpa [Article.toView] using hap
      · simp [fetchArticles, hc, hr, hst, articlesFallback, List.mem_map,
          List.mem_filter] at hv
        obtain ⟨a, ⟨haL, hap⟩, rfl⟩ := hv
        simpa [ArticleListItem.toView] using hap
    · simp [fetchArticles, hc, hst, articlesFallback, List.mem_map,
        List.mem_filter] at hv
      obtain ⟨a, ⟨haL, hap⟩, rfl⟩ := hv
      simpa [ArticleListItem.toView] using hap

/-- C3 witness: the offline filter at a concrete mixed store. -/
theorem C3_witness :
    ((fetchArticles offlineEnv false mixedStore).1 =
      ((getOfflineArticles okStorage mixedStore).filter
        (fun a => !a.is_premium)).map ArticleListItem.toView) ∧
    ((fetchArticles offlineEnv true mixedStore).1 =
      (getOfflineArticles okStorage mixedStore).map ArticleListItem.toView) :=
  ⟨(C3_theorem offlineEnv mixedStore rfl).1 rfl,
   (C3_theorem offlineEnv mixedStore rfl).2.1 rfl⟩

/-! ### Claim C4 -/

/-- Storage environment in which exactly the detail write of article a1
fails (every other storage call succeeds). -/
def a1FailStorage : StorageEnv :=
  { setItemFails := fun k => k == articleKey "a1", getItemFails := fun _ => false }

/-- C4 counterexample: saving two articles while the detail write of the
first one fails.  The failure is swallowed and the second detail record is
still written (writes are attempted independently), but the sync clock is
NOT stamped even though all writes were attempted: the rejected write
makes the awaited Promise.all throw past the saveLastSyncTime call, so
the final conjunct of the claim fails. -/
theorem C4_counterexample :
    (saveArticlesOffline a1FailStorage 100 [artFree, artPaid] Store.empty).lastSync
        = none ∧
    getEntry (saveArticlesOffline a1FailStorage 100 [artFree, artPaid]
        Store.empty).articleDetails "a2" = some artPaid := by
  constructor <;> rfl

/-- C4 (amended): in `saveArticlesOffline` / `saveQuizzesOffline` each
detail write is attempted even if another one failed (a write whose own
key succeeds always takes effect), failures are swallowed rather than
raised, and the sync clock is stamped only when the list write and every
detail write succeed; if any detail write fails, the sync clock is left
exactly as it was. -/
theorem C4_theorem (f : StorageEnv) (now : Int) (s : Store)
    (articles : List Article) (quizzes : List Quiz)
    (hA : (articles.map Article.id).Nodup) (hQ : (quizzes.map Quiz.id).Nodup)
    (hLA : f.setItemFails KEYS_ARTICLES = false)
    (hLQ : f.setItemFails KEYS_QUIZZES = false) :
    (∀ a ∈ articles, f.setItemFails (articleKey a.id) = false →
      getEntry (saveArticlesOffline f now articles s).articleDetails a.id = some a) ∧
    ((articles.any fun a => f.setItemFails (articleKey a.id)) = true →
      (saveArticlesOffline f now articles s).lastSync = s.lastSync) ∧
    ((articles.any fun a => f.setItemFails (articleKey a.id)) = false →
      f.setItemFails KEYS_LAST_SYNC = false →
      (saveArticlesOffline f now articles s).lastSync = some now) ∧
    (∀ q ∈ quizzes, f.setItemFails (quizKey q.id) = false →
      getEntry (saveQuizzesOffline f now quizzes s).quizDetails q.id = some q) ∧
    ((quizzes.any fun q => f.setItemFails (quizKey q.id)) = true →
      (saveQuizzesOffline f now quizzes s).lastSync = s.lastSync) ∧
    ((quizzes.any fun q => f.setItemFails (quizKey q.id)) = false →
      f.setItemFails KEYS_LAST_SYNC = false →
      (saveQuizzesOffline f now quizzes s).lastSync = some now) := by
  refine ⟨?_, ?_, ?_, ?_, ?_, ?_⟩
  · intro a ha hok
    rw [saveArticlesOffline_articleDetails, if_neg (by simp [hLA])]
    exact writeArticleDetails_getEntry_of_mem f articles s.articleDetails hA a ha hok
  · intro hany
    rw [saveArticlesOffline_lastSync, if_neg (by simp [hLA]), if_pos hany]
  · intro hany hsync
    rw [saveArticlesOffline_lastSync, if_neg (by simp [hLA]),
      if_neg (by simp [hany]), if_neg (by simp [hsync])]
  · intro q hq hok
    rw [saveQuizzesOffline_quizDetails, if_neg (by simp [hLQ])]
    exact writeQuizDetails_getEntry_of_mem f quizzes s.quizDetails hQ q hq hok
  · intro hany
    rw [saveQuizzesOffline_lastSync, if_neg (by simp [hLQ]), if_pos hany]
  · intro hany hsync
    rw [saveQuizzesOffline_lastSync, if_neg (by simp [hLQ]),
      if_neg (by simp [hany]), if_neg (by simp [hsync])]

/-- C4 witness: the amended behaviour at the concrete failing save of the
counterexample — the surviving write took effect and the clock moved only
for the fully successful quiz save. -/
theorem C4_witness :
    getEntry (saveArticlesOffline a1FailStorage 100 [artFree, artPaid]
        Store.empty).articleDetails artPaid.id = some artPaid ∧
    (saveArticlesOffline a1FailStorage 100 [artFree, artPaid] Store.empty).lastSync
      = Store.empty.lastSync ∧
    (saveQuizzesOffline a1FailStorage 100 [quiz1] Store.empty).lastSync = some 100 :=
  ⟨(C4_theorem a1FailStorage 100 Store.empty [artFree, artPaid] [quiz1]
      (by decide) (by decide) (by decide) (by decide)).1 artPaid (by decide) (by decide),
   (C4_theorem a1FailStorage 100 Store.empty [artFree, artPaid] [quiz1]
      (by decide) (by decide) (by decide) (by decide)).2.1 (by decide),
   (C4_theorem a1FailStorage 100 Store.empty [artFree, artPaid] [quiz1]
      (by decide) (by decide) (by decide) (by decide)).2.2.2.2.2 (by decide) (by decide)⟩

/-! ### Claim C5 -/

/-- Quiz whose id is the empty string. -/
def emptyIdQuiz : Quiz :=
  { id := "", title := "Q", description := none, article_id := "a1",
    time_limit_minutes := none, passing_score := 50, created_at := "c",
    updated_at := "u", questions := some [question1], articles := none }

/-- Store whose cached quiz list holds the empty-id quiz as first match
and whose detail area holds its full record. -/
def c5Store : Store :=
  { articlesList := none
    articleDetails := []
    quizzesList := some [emptyIdQuiz.toListItem]
    quizDetails := [("", emptyIdQuiz)]
    lastSync := none }

/-- C5 counterexample: the cached quiz list has a first entry matching
article a1 and that entry's detail record is present in the cache, yet
`getOfflineQuizByArticleId` returns `null`: the source also bails out when
the matching entry's id is falsy (the empty string), a case the claim does
not allow. -/
theorem C5_counterexample :
    ((getOfflineQuizzes okStorage c5Store).find?
        (fun q => q.article_id = "a1") = some emptyIdQuiz.toListItem) ∧
    getOfflineQuiz okStorage c5Store "" = some emptyIdQuiz ∧
    getOfflineQuizByArticleId okStorage c5Store "a1" = none := by
  refine ⟨rfl, rfl, rfl⟩

/-- C5 (amended): `getOfflineQuizByArticleId` resolves the first cached
list entry whose article reference matches through the detail getter
(returning the full stored record, question sequence included, exactly
when it is present), and returns `null` when no entry matches, when the
matching entry's id is the empty string, or when the detail record is
absent; it never raises an error. -/
theorem C5_theorem (s : Store) (articleId : String) :
    (((getOfflineQuizzes okStorage s).find?
        (fun q => q.article_id = articleId)) = none →
      getOfflineQuizByArticleId okStorage s articleId = none) ∧
    (∀ q, (getOfflineQuizzes okStorage s).find?
        (fun q => q.article_id = articleId) = some q → q.id ≠ "" →
      getOfflineQuizByArticleId okStorage s articleId =
        getEntry s.quizDetails q.id) ∧
    (∀ q, (getOfflineQuizzes okStorage s).find?
        (fun q => q.article_id = articleId) = some q → q.id = "" →
      getOfflineQuizByArticleId okStorage s articleId = none) := by
  refine ⟨?_, ?_, ?_⟩
  · intro hnone
    simp [getOfflineQuizByArticleId, hnone]
  · intro q hfind hid
    simp [getOfflineQuizByArticleId, hfind, hid, getOfflineQuiz, okStorage_getItemFails]
  · intro q hfind hid
    simp [getOfflineQuizByArticleId, hfind, hid]

/-- C5 witness: the amended lookup at a concrete store holding quiz1 —
a match with a nonempty id resolves to the stored detail record, and a
search for an unmatched article id resolves to none. -/
theorem C5_witness :
    (getOfflineQuizByArticleId okStorage
        { articlesList := none, articleDetails := [],
          quizzesList := some [quiz1.toListItem],
          quizDetails := [("q1", quiz1)], lastSync := none } "a1" =
      getEntry [("q1", quiz1)] quiz1.toListItem.id) ∧
    (getOfflineQuizByArticleId okStorage
        { articlesList := none, articleDetails := [],
          quizzesList := some [quiz1.toListItem],
          quizDetails := [("q1", quiz1)], lastSync := none } "a9" = none) :=
  ⟨(C5_theorem
      { articlesList := none, articleDetails := [],
        quizzesList := some [quiz1.toListItem],
        quizDetails := [("q1", quiz1)], lastSync := none } "a1").2.1
      quiz1.toListItem (by decide) (by decide),
   (C5_theorem
      { articlesList := none, articleDetails := [],
        quizzesList := some [quiz1.toListItem],
        quizDetails := [("q1", quiz1)], lastSync := none } "a9").1 (by decide)⟩

/-! ### Claim C9 -/

/-- C9: a successful online `fetchArticleById` (resp. online
`fetchQuizByArticleId`) overwrites the cached list record of that entity
type with a one-element list holding only the fetched entity — a
subsequent list read returns exactly that entity and none of the entities
previously in the list record — while every previously stored detail
record under a different id remains intact (and the fetched entity's own
detail record is freshly written). -/
theorem C9_theorem (env : Env) (s : Store) (articleId qArticleId : String)
    (a : Article) (qz : Quiz)
    (hc : env.connected = true) (hr : env.remoteOk = true)
    (hst : env.storage = okStorage)
    (hfa : env.articlesTable.filter (fun x => x.id = articleId) = [a])
    (hfq : env.quizzesTable.filter (fun q => q.article_id = qArticleId) = [qz]) :
    (fetchArticleById env articleId s).1 = Except.ok a ∧
    getOfflineArticles okStorage (fetchArticleById env articleId s).2 =
      [a.toListItem] ∧
    getOfflineArticle okStorage (fetchArticleById env articleId s).2 a.id = some a ∧
    (∀ k, k ≠ a.id →
      getOfflineArticle okStorage (fetchArticleById env articleId s).2 k =
        getOfflineArticle okStorage s k) ∧
    (fetchQuizByArticleId env qArticleId s).1 =
      some { qz with questions := some (sortByQuestionOrder
        (env.questionsTable.filter (fun qq => qq.quiz_id = qz.id))) } ∧
    getOfflineQuizzes okStorage (fetchQuizByArticleId env qArticleId s).2 =
      [({ qz with questions := some (sortByQuestionOrder
        (env.questionsTable.filter (fun qq => qq.quiz_id = qz.id))) }).toListItem] ∧
    getOfflineQuiz okStorage (fetchQuizByArticleId env qArticleId s).2 qz.id =
      some { qz with questions := some (sortByQuestionOrder
        (env.questionsTable.filter (fun qq => qq.quiz_id = qz.id))) } ∧
    (∀ k, k ≠ qz.id →
      getOfflineQuiz okStorage (fetchQuizByArticleId env qArticleId s).2 k =
        getOfflineQuiz okStorage s k) := by
  have hA : fetchArticleById env articleId s =
      (Except.ok a, saveArticlesOffline okStorage env.now [a] s) := by
    simp [fetchArticleById, hc, hr, hfa, hst, remoteSingle]
  have hQz : fetchQuizByArticleId env qArticleId s =
      (some { qz with questions := some (sortByQuestionOrder
          (env.questionsTable.filter (fun qq => qq.quiz_id = qz.id))) },
        saveQuizzesOffline okStorage env.now
          [{ qz with questions := some (sortByQuestionOrder
            (env.questionsTable.filter (fun qq => qq.quiz_id = qz.id))) }] s) := by
    simp [fetchQuizByArticleId, hc, hr, hfq, hst]
  refine ⟨?_, ?_, ?_, ?_, ?_, ?_, ?_, ?_⟩
  · rw [hA]
  · rw [hA]
    simp [getOfflineArticles, okStorage_getItemFails,
      saveArticlesOffline_articlesList, okStorage_setItemFails]
  · rw [hA]
    simp only [getOfflineArticle, okStorage_getItemFails, Bool.false_eq_true, if_false,
      saveArticlesOffline_articleDetails, okStorage_setItemFails,
      writeArticleDetails_cons, writeArticleDetails_nil]
    exact getEntry_setEntry_same s.articleDetails a.id a
  · intro k hk
    rw [hA]
    simp only [getOfflineArticle, okStorage_getItemFails, Bool.false_eq_true, if_false,
      saveArticlesOffline_articleDetails, okStorage_setItemFails]
    exact writeArticleDetails_getEntry_of_notin okStorage [a] s.articleDetails k
      (by intro x hx; rw [List.mem_singleton] at hx; subst hx; exact Ne.symm hk)
  · rw [hQz]
  · rw [hQz]
    simp [getOfflineQuizzes, okStorage_getItemFails,
      saveQuizzesOffline_quizzesList, okStorage_setItemFails]
  · rw [hQz]
    simp only [getOfflineQuiz, okStorage_getItemFails, Bool.false_eq_true, if_false,
      saveQuizzesOffline_quizDetails, okStorage_setItemFails,
      writeQuizDetails_cons, writeQuizDetails_nil]
    exact getEntry_setEntry_same s.quizDetails qz.id _
  · intro k hk
    rw [hQz]
    simp only [getOfflineQuiz, okStorage_getItemFails, Bool.false_eq_true, if_false,
      saveQuizzesOffline_quizDetails, okStorage_setItemFails]
    exact writeQuizDetails_getEntry_of_notin okStorage _ s.quizDetails k
      (by intro x hx; rw [List.mem_singleton] at hx; subst hx; exact Ne.symm hk)

/-- C9 witness: the list-overwrite effect at a concrete online fetch. -/
theorem C9_witness :
    (fetchArticleById onlineEnv "a1" Store.empty).1 = Except.ok artFree ∧
    getOfflineArticles okStorage (fetchArticleById onlineEnv "a1" Store.empty).2 =
      [artFree.toListItem] ∧
    getOfflineArticle okStorage (fetchArticleById onlineEnv "a1" Store.empty).2 "zz" =
      getOfflineArticle okStorage Store.empty "zz" :=
  ⟨(C9_theorem onlineEnv Store.empty "a1" "a1" artFree quiz1 rfl rfl rfl
      (by decide) (by decide)).1,
   (C9_theorem onlineEnv Store.empty "a1" "a1" artFree quiz1 rfl rfl rfl
      (by decide) (by decide)).2.1,
   (C9_theorem onlineEnv Store.empty "a1" "a1" artFree quiz1 rfl rfl rfl
      (by decide) (by decide)).2.2.2.1 "zz" (by decide)⟩

/-! ### Claim C10 -/

/-- C10: when `fetchArticles false` runs online and succeeds, it caches
exactly the premium-filtered remote result set: afterwards the cached
article list record contains no premium-flagged entry, so a subsequent
offline `fetchArticles true` returns no premium article even if premium
articles were cached before the online call. -/
theorem C10_theorem (env env2 : Env) (s : Store)
    (hc : env.connected = true) (hr : env.remoteOk = true)
    (hst : env.storage = okStorage)
    (hc2 : env2.connected = false) (hst2 : env2.storage = okStorage) :
    getOfflineArticles okStorage (fetchArticles env false s).2 =
      (env.articlesTable.filter (fun a => a.is_premium = false)).map
        Article.toListItem ∧
    (∀ item ∈ getOfflineArticles okStorage (fetchArticles env false s).2,
      item.is_premium = false) ∧
    (∀ v ∈ (fetchArticles env2 true (fetchArticles env false s).2).1,
      v.is_premium = false) := by
  have hs2 : (fetchArticles env false s).2 =
      saveArticlesOffline okStorage env.now
        (env.articlesTable.filter (fun a => a.is_premium = false)) s := by
    simp [fetchArticles, hc, hr, hst]
  have h1 : getOfflineArticles okStorage (fetchArticles env false s).2 =
      (env.articlesTable.filter (fun a => a.is_premium = false)).map
        Article.toListItem := by
    rw [hs2]
    simp [getOfflineArticles, okStorage_getItemFails,
      saveArticlesOffline_articlesList, okStorage_setItemFails]
  have h2 : ∀ item ∈ getOfflineArticles okStorage (fetchArticles env false s).2,
      item.is_premium = false := by
    intro item hitem
    rw [h1] at hitem
    simp [List.mem_map, List.mem_filter] at hitem
    obtain ⟨a, ⟨haT, hap⟩, rfl⟩ := hitem
    simpa [Article.toListItem] using hap
  have hoff : ∀ (t : Store), (fetchArticles env2 true t).1 =
      (getOfflineArticles okStorage t).map ArticleListItem.toView := by
    intro t
    simp [fetchArticles, hc2, hst2, articlesFallback]
  refine ⟨h1, h2, ?_⟩
  intro v hv
  rw [hoff] at hv
  rw [List.mem_map] at hv
  obtain ⟨item, hitem, rfl⟩ := hv
  have hfalse := h2 item hitem
  simpa [ArticleListItem.toView] using hfalse

/-- C10 witness: the premium-purging cache overwrite at a concrete store
that previously held a premium entry. -/
theorem C10_witness :
    getOfflineArticles okStorage (fetchArticles onlineEnv false mixedStore).2 =
      (onlineEnv.articlesTable.filter (fun a => a.is_premium = false)).map
        Article.toListItem ∧
    artFree.toListItem.is_premium = false :=
  ⟨(C10_theorem onlineEnv offlineEnv mixedStore rfl rfl rfl rfl rfl).1,
   (C10_theorem onlineEnv offlineEnv mixedStore rfl rfl rfl rfl rfl).2.1
     artFree.toListItem (by decide)⟩
